import Mathlib

/-!
Shallow embedding of the confidential-protocol core of
`wdk-protocol-confidential-fairblock-evm` (src/src/fairblock-protocol-evm.js,
class `ConfidentialProtocolEvm`).

The core binds one wallet account to one backend client
(`ConfidentialTransferClient` from the external stabletrust package), holds the
enablement state (the stored confidential key pair `_keys`) and an optional
provider binding `_provider`, and dispatches each operation to the backend
after precondition checks.

External collaborators (the backend client, the wallet account, ethers
providers) are modelled as data: a `Backend` record of response functions and
an `Account` variant type. Every operation of the core returns, besides its
result, the successor state and the list of backend calls it performed, so
that "does not invoke the Backend" and "passes exactly this argument" are
expressible.
-/

/-- Error kinds surfaced by the core, following the error taxonomy of the
design: the two explicit throws in fairblock-protocol-evm.js (the
not-enabled check in deposit/transfer/withdraw/getConfidentialBalance and the
not-connected check in `_getEthersWallet`), the unsupported-operation failure
raised by the external account capability when key material is requested from
a read-only account, and backend failures propagated unchanged. -/
inductive ProtoError where
  | notImplemented (method : String)
  | notConnected
  | notEnabled
  | unsupportedOperation
  | backendFailure (msg : String)
deriving DecidableEq, Repr

/-- Provider descriptor held in the account configuration
(`account._config.provider`): a JSON-RPC URL string or an injected
browser-style provider handle. -/
inductive ProviderDesc where
  | url (u : String)
  | injected
deriving DecidableEq, Repr

/-- Provider binding constructed by the core constructor: `new
JsonRpcProvider(provider)` for a URL string, `new BrowserProvider(provider)`
for an injected handle. -/
inductive Provider where
  | jsonRpc (u : String)
  | browser
deriving DecidableEq, Repr

/-- The wallet account capability (external collaborator, package
wdk-wallet-evm): read-only accounts expose an address only; signing accounts
additionally expose raw private-key bytes. Both carry the optional provider
descriptor of their configuration. -/
inductive Account where
  | readOnly (address : String) (providerDesc : Option ProviderDesc)
  | signing (address : String) (privateKey : List Nat) (providerDesc : Option ProviderDesc)
deriving DecidableEq, Repr

/-- The address of the account (`account.getAddress()`), available in both
variants. -/
def Account.getAddress : Account → String
  | .readOnly a _ => a
  | .signing a _ _ => a

/-- The provider descriptor of the account configuration
(`account._config.provider`). -/
def Account.providerDesc : Account → Option ProviderDesc
  | .readOnly _ pd => pd
  | .signing _ _ pd => pd

/-- Modelled from the spec: access to `account.keyPair.privateKey` lives in
the external wdk-wallet-evm package, not in src/. Per the spec, obtaining key
material fails with `UnsupportedOperation` on a read-only account and yields
the raw private-key bytes on a signing account. -/
def Account.keyPairPrivateKey : Account → Except ProtoError (List Nat)
  | .readOnly _ _ => .error .unsupportedOperation
  | .signing _ pk _ => .ok pk

/-- Constructor configuration of the core (`ConfidentialProtocolConfig`):
settlement-contract address, RPC URL and chain id. -/
structure ProtocolConfig where
  stableTrust : String
  rpcUrl : String
  chainId : Nat
deriving DecidableEq, Repr

/-- The binding parameters the constructor passes to `new
ConfidentialTransferClient(config.rpcUrl, config.stableTrust,
config.chainId)`. -/
structure ClientBinding where
  rpcUrl : String
  stableTrust : String
  chainId : Nat
deriving DecidableEq, Repr

/-- Confidential key pair as returned by the backend registration routine and
stored on the core (`this._keys`). -/
structure ConfidentialKeys where
  publicKey : String
  privateKey : String
deriving DecidableEq, Repr

/-- The ethers wallet built by `_getEthersWallet`: hex-encoded private key
plus the provider binding. -/
structure EthersWallet where
  privateKeyHex : String
  provider : Provider
deriving DecidableEq, Repr

/-- Result of a mutating backend call: the transaction hash. -/
structure TxResult where
  hash : String
deriving DecidableEq, Repr

/-- Raw confidential-balance result returned by the backend. -/
structure BalanceRaw where
  amount : Int
deriving DecidableEq, Repr

/-- Confidential-balance result returned by the core
(`{ amount: BigInt(result.amount) }`). -/
structure ConfidentialBalanceResult where
  amount : Int
deriving DecidableEq, Repr

/-- A recorded invocation of a backend-client method, with the arguments the
core passed. -/
inductive BackendCall where
  | ensureAccount (w : EthersWallet)
  | confidentialDeposit (w : EthersWallet) (token : String) (amount : Int)
  | confidentialTransfer (w : EthersWallet) (recipient token : String) (amount : Int)
  | withdraw (w : EthersWallet) (token : String) (amount : Int)
  | getConfidentialBalance (address privateKey token : String)
  | getPublicBalance (address token : String)
deriving DecidableEq, Repr

/-- Behaviour of the external `ConfidentialTransferClient`: each method either
returns its documented result or fails with a backend-side error message. -/
structure Backend where
  ensureAccount : EthersWallet → Except String ConfidentialKeys
  confidentialDeposit : EthersWallet → String → Int → Except String TxResult
  confidentialTransfer : EthersWallet → String → String → Int → Except String TxResult
  withdraw : EthersWallet → String → Int → Except String TxResult
  getConfidentialBalance : String → String → String → Except String BalanceRaw
  getPublicBalance : String → String → Except String Int

/-- Instance state of `ConfidentialProtocolEvm`: the bound account, the
configuration, the client binding, the optional provider binding, and the
stored confidential keys — the only field any operation ever reassigns. -/
structure CoreState where
  account : Account
  config : ProtocolConfig
  client : ClientBinding
  provider : Option Provider
  keys : Option ConfidentialKeys
deriving DecidableEq, Repr

/-- The constructor: store the config, build the client binding from
`(rpcUrl, stableTrust, chainId)`, set `_keys` to undefined, and build the
provider binding exactly when the account configuration carries a provider
descriptor. -/
def mkCore (account : Account) (config : ProtocolConfig) : CoreState :=
  { account := account
    config := config
    client := ⟨config.rpcUrl, config.stableTrust, config.chainId⟩
    provider := account.providerDesc.map fun pd =>
      match pd with
      | .url u => Provider.jsonRpc u
      | .injected => Provider.browser
    keys := none }

/-- Hexadecimal digit characters, used to encode private-key bytes. -/
def hexChar (n : Nat) : Char :=
  "0123456789abcdef".toList.getD n '0'

/-- Two-digit lowercase hex encoding of one byte. -/
def byteToHex (n : Nat) : String :=
  String.mk [hexChar (n % 256 / 16), hexChar (n % 16)]

/-- Hex encoding of a byte sequence
(`Buffer.from(privateKey).toString('hex')`). -/
def bytesToHex (bs : List Nat) : String :=
  String.join (bs.map byteToHex)

/-- Outcome of one core operation: the settled result, the successor instance
state, and the backend calls performed during the operation. -/
structure OpOut (α : Type) where
  result : Except ProtoError α
  state : CoreState
  calls : List BackendCall

/-- Embedding of `_getEthersWallet`: fail with the not-connected error when no
provider binding exists, then obtain the raw private key from the account and
build the ethers wallet from its hex encoding and the provider. -/
def getEthersWallet (s : CoreState) : Except ProtoError EthersWallet :=
  match s.provider with
  | none => .error .notConnected
  | some p =>
    match s.account.keyPairPrivateKey with
    | .error e => .error e
    | .ok pk => .ok ⟨bytesToHex pk, p⟩

/-- Embedding of `enableConfidentiality`: obtain the ethers wallet, call the
backend registration routine `ensureAccount`, store the returned keys on the
instance and return the `{publicKey, privateKey}` pair. -/
def enableConfidentiality (b : Backend) (s : CoreState) : OpOut ConfidentialKeys :=
  match getEthersWallet s with
  | .error e => ⟨.error e, s, []⟩
  | .ok w =>
    match b.ensureAccount w with
    | .error e => ⟨.error (.backendFailure e), s, [.ensureAccount w]⟩
    | .ok keys =>
      ⟨.ok ⟨keys.publicKey, keys.privateKey⟩, { s with keys := some keys }, [.ensureAccount w]⟩

/-- Embedding of `depositConfidential`: reject with the not-enabled error when
no keys are stored, otherwise obtain the wallet and delegate to the backend
deposit call, returning `{hash}`. -/
def depositConfidential (b : Backend) (s : CoreState) (token : String) (amount : Int) :
    OpOut TxResult :=
  match s.keys with
  | none => ⟨.error .notEnabled, s, []⟩
  | some _ =>
    match getEthersWallet s with
    | .error e => ⟨.error e, s, []⟩
    | .ok w =>
      match b.confidentialDeposit w token amount with
      | .error e => ⟨.error (.backendFailure e), s, [.confidentialDeposit w token amount]⟩
      | .ok r => ⟨.ok ⟨r.hash⟩, s, [.confidentialDeposit w token amount]⟩

/-- Embedding of `transferConfidential`: reject with the not-enabled error
when no keys are stored, otherwise obtain the wallet and delegate to the
backend transfer call, returning `{hash}`. -/
def transferConfidential (b : Backend) (s : CoreState) (recipient token : String)
    (amount : Int) : OpOut TxResult :=
  match s.keys with
  | none => ⟨.error .notEnabled, s, []⟩
  | some _ =>
    match getEthersWallet s with
    | .error e => ⟨.error e, s, []⟩
    | .ok w =>
      match b.confidentialTransfer w recipient token amount with
      | .error e => ⟨.error (.backendFailure e), s, [.confidentialTransfer w recipient token amount]⟩
      | .ok r => ⟨.ok ⟨r.hash⟩, s, [.confidentialTransfer w recipient token amount]⟩

/-- Embedding of `withdrawConfidential`: reject with the not-enabled error
when no keys are stored, otherwise obtain the wallet and delegate to the
backend withdraw call, returning `{hash}`. -/
def withdrawConfidential (b : Backend) (s : CoreState) (token : String) (amount : Int) :
    OpOut TxResult :=
  match s.keys with
  | none => ⟨.error .notEnabled, s, []⟩
  | some _ =>
    match getEthersWallet s with
    | .error e => ⟨.error e, s, []⟩
    | .ok w =>
      match b.withdraw w token amount with
      | .error e => ⟨.error (.backendFailure e), s, [.withdraw w token amount]⟩
      | .ok r => ⟨.ok ⟨r.hash⟩, s, [.withdraw w token amount]⟩

/-- Embedding of `getConfidentialBalance`: reject with the not-enabled error
when no keys are stored, otherwise pass the account address, the stored
private key, and the token to the backend decryption call and coerce the
returned amount to an arbitrary-precision integer. -/
def getConfidentialBalance (b : Backend) (s : CoreState) (token : String) :
    OpOut ConfidentialBalanceResult :=
  match s.keys with
  | none => ⟨.error .notEnabled, s, []⟩
  | some k =>
    match b.getConfidentialBalance s.account.getAddress k.privateKey token with
    | .error e =>
      ⟨.error (.backendFailure e), s, [.getConfidentialBalance s.account.getAddress k.privateKey token]⟩
    | .ok r =>
      ⟨.ok ⟨r.amount⟩, s, [.getConfidentialBalance s.account.getAddress k.privateKey token]⟩

/-- Embedding of `getPublicBalance`: pass the account address and the token to
the backend public-ledger query, with no precondition check, and coerce the
result to an arbitrary-precision integer. -/
def getPublicBalance (b : Backend) (s : CoreState) (token : String) : OpOut Int :=
  match b.getPublicBalance s.account.getAddress token with
  | .error e => ⟨.error (.backendFailure e), s, [.getPublicBalance s.account.getAddress token]⟩
  | .ok n => ⟨.ok n, s, [.getPublicBalance s.account.getAddress token]⟩

/-- Embedding of `getFee`: the placeholder implementation returns zero without
contacting the backend. -/
def getFee (_b : Backend) (s : CoreState) : OpOut Int :=
  ⟨.ok 0, s, []⟩

/-! Concrete instances used by the witnesses: a demo configuration, a demo
backend with constant responses, and core states in the modes the claims
distinguish (signing with provider, signing without provider, read-only,
enabled, disabled). -/

/-- Demo settlement-contract address. -/
def stDemo : String := "0xST"

/-- Demo RPC URL. -/
def rpcUrlDemo : String := "https://rpc"

/-- Demo sender address. -/
def addrSender : String := "0xSender"

/-- Demo reader address. -/
def addrReader : String := "0xReader"

/-- Demo recipient address. -/
def addrRecipient : String := "0xBBB"

/-- Demo token address. -/
def tokenA : String := "0xAAA"

/-- Demo public key returned by the first registration. -/
def pk1 : String := "pk1"

/-- Demo private key returned by the first registration. -/
def sk1 : String := "sk1"

/-- Demo public key returned by the second registration. -/
def pk2 : String := "pk2"

/-- Demo private key returned by the second registration. -/
def sk2 : String := "sk2"

/-- Demo deposit transaction hash. -/
def hashDeposit : String := "0xdeadbeef"

/-- Demo transfer transaction hash. -/
def hashTransfer : String := "0xcafe"

/-- Demo withdraw transaction hash. -/
def hashWithdraw : String := "0xfeed"

/-- Hex encoding of the demo signing key bytes. -/
def hexDemoKey : String := "010203"

/-- Demo protocol configuration. -/
def demoConfig : ProtocolConfig := ⟨stDemo, rpcUrlDemo, 2201⟩

/-- Demo backend whose calls all succeed with constant responses. -/
def demoBackend : Backend :=
  { ensureAccount := fun _ => .ok ⟨pk1, sk1⟩
    confidentialDeposit := fun _ _ _ => .ok ⟨hashDeposit⟩
    confidentialTransfer := fun _ _ _ _ => .ok ⟨hashTransfer⟩
    withdraw := fun _ _ _ => .ok ⟨hashWithdraw⟩
    getConfidentialBalance := fun _ _ _ => .ok ⟨100⟩
    getPublicBalance := fun _ _ => .ok 42 }

/-- Demo backend whose registration returns a second, different key pair. -/
def demoBackend2 : Backend :=
  { demoBackend with ensureAccount := fun _ => .ok ⟨pk2, sk2⟩ }

/-- Demo signing account with a provider descriptor. -/
def signingAccount : Account := .signing addrSender [1, 2, 3] (some (.url rpcUrlDemo))

/-- Core constructed over the demo signing account. -/
def sSigning : CoreState := mkCore signingAccount demoConfig

/-- The ethers wallet `_getEthersWallet` builds over the demo signing
account. -/
def demoWallet : EthersWallet := ⟨hexDemoKey, .jsonRpc rpcUrlDemo⟩

/-- The demo core after a successful enablement with `demoBackend`. -/
def sEnabled : CoreState := { sSigning with keys := some ⟨pk1, sk1⟩ }

/-- Demo read-only account with a provider descriptor. -/
def roAccount : Account := .readOnly addrReader (some (.url rpcUrlDemo))

/-- Core constructed over the demo read-only account. -/
def sReadOnly : CoreState := mkCore roAccount demoConfig

/-- Demo signing account without a provider descriptor. -/
def signingNoProv : Account := .signing addrSender [1, 2, 3] none

/-- Core constructed over the provider-less signing account. -/
def sNoProv : CoreState := mkCore signingNoProv demoConfig

/-- Provider-less core with keys set, exercising the connectivity check of the
gated operations in isolation. -/
def sNoProvEnabled : CoreState := { sNoProv with keys := some ⟨pk1, sk1⟩ }

/-- Helper: whenever keys are stored, the confidential-balance query performs
exactly one backend call, carrying the account address, the stored private
key and the token, whether or not the backend call succeeds. -/
lemma getConfidentialBalance_calls (b : Backend) (s : CoreState) (token : String)
    (k : ConfidentialKeys) (hk : s.keys = some k) :
    (getConfidentialBalance b s token).calls =
      [BackendCall.getConfidentialBalance s.account.getAddress k.privateKey token] := by
  cases hb : b.getConfidentialBalance s.account.getAddress k.privateKey token <;>
    simp [getConfidentialBalance, hk, hb]

/-- C1: on a core whose stored keys are unset, depositConfidential,
transferConfidential, withdrawConfidential and getConfidentialBalance all
reject with the NotEnabled error, leave the state unchanged, and perform no
backend call. -/
theorem C1_not_enabled_gates (b : Backend) (s : CoreState) (recipient token : String)
    (amount : Int) (h : s.keys = none) :
    depositConfidential b s token amount = ⟨.error .notEnabled, s, []⟩ ∧
    transferConfidential b s recipient token amount = ⟨.error .notEnabled, s, []⟩ ∧
    withdrawConfidential b s token amount = ⟨.error .notEnabled, s, []⟩ ∧
    getConfidentialBalance b s token = ⟨.error .notEnabled, s, []⟩ := by
  refine ⟨?_, ?_, ?_, ?_⟩ <;>
    simp [depositConfidential, transferConfidential, withdrawConfidential,
      getConfidentialBalance, h]

/-- Witness for C1 at the freshly constructed signing core. -/
theorem C1_witness :
    sSigning.keys = none ∧
    (depositConfidential demoBackend sSigning tokenA 5 = ⟨.error .notEnabled, sSigning, []⟩ ∧
     transferConfidential demoBackend sSigning addrRecipient tokenA 5 =
       ⟨.error .notEnabled, sSigning, []⟩ ∧
     withdrawConfidential demoBackend sSigning tokenA 5 = ⟨.error .notEnabled, sSigning, []⟩ ∧
     getConfidentialBalance demoBackend sSigning tokenA = ⟨.error .notEnabled, sSigning, []⟩) :=
  ⟨rfl, C1_not_enabled_gates demoBackend sSigning addrRecipient tokenA 5 rfl⟩

/-- C2: a successful enableConfidentiality stores exactly the key pair it
returns to the caller, and every subsequent getConfidentialBalance passes
exactly that stored private key to the backend decryption call. -/
theorem C2_enable_keys_roundtrip (b b2 : Backend) (s s' : CoreState) (token : String)
    (ret : ConfidentialKeys) (tr : List BackendCall)
    (h : enableConfidentiality b s = ⟨.ok ret, s', tr⟩) :
    s'.keys = some ⟨ret.publicKey, ret.privateKey⟩ ∧
    (getConfidentialBalance b2 s' token).calls =
      [BackendCall.getConfidentialBalance s'.account.getAddress ret.privateKey token] := by
  unfold enableConfidentiality at h
  split at h
  · simp at h
  · split at h
    · simp at h
    · injection h with h1 h2 h3
      injection h1 with h1
      subst h2
      subst h1
      exact ⟨rfl, getConfidentialBalance_calls b2 _ token _ rfl⟩

/-- Witness for C2: enabling succeeds on the demo core and the balance query
then carries the stored private key. -/
theorem C2_witness :
    enableConfidentiality demoBackend sSigning =
      ⟨.ok ⟨pk1, sk1⟩, sEnabled, [.ensureAccount demoWallet]⟩ ∧
    (sEnabled.keys = some ⟨pk1, sk1⟩ ∧
     (getConfidentialBalance demoBackend sEnabled tokenA).calls =
       [BackendCall.getConfidentialBalance sEnabled.account.getAddress sk1 tokenA]) :=
  ⟨rfl, C2_enable_keys_roundtrip demoBackend demoBackend sSigning sEnabled tokenA
    ⟨pk1, sk1⟩ [.ensureAccount demoWallet] rfl⟩

/-- C3 counterexample: on a read-only core with a provider attached,
depositConfidential fails with NotEnabled, not with UnsupportedOperation as
the claim states. -/
theorem C3_counterexample :
    depositConfidential demoBackend sReadOnly tokenA 5 = ⟨.error .notEnabled, sReadOnly, []⟩ ∧
    ProtoError.notEnabled ≠ ProtoError.unsupportedOperation :=
  ⟨rfl, by decide⟩

/-- C3 amended: on a core constructed over a read-only account, no backend
call is ever made by a mutating operation; enableConfidentiality fails with
NotConnected when no provider descriptor is present and with
UnsupportedOperation when one is, while deposit, transfer, withdraw and the
confidential-balance query fail with NotEnabled, keys being forever unset. -/
theorem C3_readonly_amended (b : Backend) (addr : String) (pd : Option ProviderDesc)
    (cfg : ProtocolConfig) (recipient token : String) (amount : Int) :
    enableConfidentiality b (mkCore (.readOnly addr pd) cfg) =
      ⟨.error (match pd with
        | none => ProtoError.notConnected
        | some _ => ProtoError.unsupportedOperation),
       mkCore (.readOnly addr pd) cfg, []⟩ ∧
    depositConfidential b (mkCore (.readOnly addr pd) cfg) token amount =
      ⟨.error .notEnabled, mkCore (.readOnly addr pd) cfg, []⟩ ∧
    transferConfidential b (mkCore (.readOnly addr pd) cfg) recipient token amount =
      ⟨.error .notEnabled, mkCore (.readOnly addr pd) cfg, []⟩ ∧
    withdrawConfidential b (mkCore (.readOnly addr pd) cfg) token amount =
      ⟨.error .notEnabled, mkCore (.readOnly addr pd) cfg, []⟩ ∧
    getConfidentialBalance b (mkCore (.readOnly addr pd) cfg) token =
      ⟨.error .notEnabled, mkCore (.readOnly addr pd) cfg, []⟩ := by
  cases pd <;>
    simp [mkCore, enableConfidentiality, getEthersWallet, Account.keyPairPrivateKey,
      Account.providerDesc, depositConfidential, transferConfidential,
      withdrawConfidential, getConfidentialBalance]

/-- C4: with keys enabled and a wallet available, transferConfidential
returns exactly the hash the backend produced, and two transfers differing
only in the amount but yielding the same backend hash produce identical core
results — the amount is not recoverable from the return value. -/
theorem C4_transfer_hash_only (b : Backend) (s : CoreState) (recipient token : String)
    (amount : Int) (k : ConfidentialKeys) (w : EthersWallet) (r : TxResult)
    (hk : s.keys = some k) (hw : getEthersWallet s = .ok w)
    (hb : b.confidentialTransfer w recipient token amount = .ok r) :
    (transferConfidential b s recipient token amount).result = .ok ⟨r.hash⟩ ∧
    (∀ (b' : Backend) (amount' : Int) (r' : TxResult),
      b'.confidentialTransfer w recipient token amount' = .ok r' → r'.hash = r.hash →
      (transferConfidential b' s recipient token amount').result =
        (transferConfidential b s recipient token amount).result) := by
  constructor
  · simp [transferConfidential, hk, hw, hb]
  · intro b' a' r' hb' hh
    simp [transferConfidential, hk, hw, hb, hb', hh]

/-- Witness for C4: two demo transfers of different amounts return the same
result, built from the backend hash alone. -/
theorem C4_witness :
    (transferConfidential demoBackend sEnabled addrRecipient tokenA 5).result =
      .ok ⟨hashTransfer⟩ ∧
    (transferConfidential demoBackend sEnabled addrRecipient tokenA 7).result =
      (transferConfidential demoBackend sEnabled addrRecipient tokenA 5).result :=
  ⟨(C4_transfer_hash_only demoBackend sEnabled addrRecipient tokenA 5 ⟨pk1, sk1⟩
      demoWallet ⟨hashTransfer⟩ rfl rfl rfl).1,
   (C4_transfer_hash_only demoBackend sEnabled addrRecipient tokenA 5 ⟨pk1, sk1⟩
      demoWallet ⟨hashTransfer⟩ rfl rfl rfl).2 demoBackend 7 ⟨hashTransfer⟩ rfl rfl⟩

/-- C5: with keys enabled and a wallet available, depositConfidential passes
the amount to the backend deposit call as the identical integer value,
whatever the backend then does. -/
theorem C5_deposit_amount_exact (b : Backend) (s : CoreState) (token : String)
    (amount : Int) (k : ConfidentialKeys) (w : EthersWallet)
    (hk : s.keys = some k) (hw : getEthersWallet s = .ok w) :
    (depositConfidential b s token amount).calls =
      [BackendCall.confidentialDeposit w token amount] := by
  cases hb : b.confidentialDeposit w token amount <;>
    simp [depositConfidential, hk, hw, hb]

/-- Witness for C5 at an amount exceeding two to the fifty-third power. -/
theorem C5_witness :
    (depositConfidential demoBackend sEnabled tokenA 9007199254740993).calls =
      [BackendCall.confidentialDeposit demoWallet tokenA 9007199254740993] ∧
    (2 : Int) ^ 53 < 9007199254740993 :=
  ⟨C5_deposit_amount_exact demoBackend sEnabled tokenA 9007199254740993 ⟨pk1, sk1⟩
      demoWallet rfl rfl,
   by norm_num⟩

/-- C6: the stored key pair is the only mutable state. Every operation other
than enableConfidentiality returns the instance state unchanged, and
enableConfidentiality either leaves the state unchanged (any failure,
including a failing backend registration) or succeeds, returning the pair it
wrote into the keys field. -/
theorem C6_only_keys_mutate (b : Backend) (s : CoreState) (recipient token : String)
    (amount : Int) :
    (depositConfidential b s token amount).state = s ∧
    (transferConfidential b s recipient token amount).state = s ∧
    (withdrawConfidential b s token amount).state = s ∧
    (getConfidentialBalance b s token).state = s ∧
    (getPublicBalance b s token).state = s ∧
    (getFee b s).state = s ∧
    ((enableConfidentiality b s).state = s ∨
      ∃ k : ConfidentialKeys,
        (enableConfidentiality b s).result = .ok ⟨k.publicKey, k.privateKey⟩ ∧
        (enableConfidentiality b s).state = { s with keys := some k }) := by
  refine ⟨?_, ?_, ?_, ?_, ?_, rfl, ?_⟩
  · cases hk : s.keys with
    | none => simp [depositConfidential, hk]
    | some k =>
      cases hw : getEthersWallet s with
      | error e => simp [depositConfidential, hk, hw]
      | ok w =>
        cases hb : b.confidentialDeposit w token amount <;>
          simp [depositConfidential, hk, hw, hb]
  · cases hk : s.keys with
    | none => simp [transferConfidential, hk]
    | some k =>
      cases hw : getEthersWallet s with
      | error e => simp [transferConfidential, hk, hw]
      | ok w =>
        cases hb : b.confidentialTransfer w recipient token amount <;>
          simp [transferConfidential, hk, hw, hb]
  · cases hk : s.keys with
    | none => simp [withdrawConfidential, hk]
    | some k =>
      cases hw : getEthersWallet s with
      | error e => simp [withdrawConfidential, hk, hw]
      | ok w =>
        cases hb : b.withdraw w token amount <;>
          simp [withdrawConfidential, hk, hw, hb]
  · cases hk : s.keys with
    | none => simp [getConfidentialBalance, hk]
    | some k =>
      cases hb : b.getConfidentialBalance s.account.getAddress k.privateKey token <;>
        simp [getConfidentialBalance, hk, hb]
  · cases hb : b.getPublicBalance s.account.getAddress token <;>
      simp [getPublicBalance, hb]
  · cases hw : getEthersWallet s with
    | error e => exact Or.inl (by simp [enableConfidentiality, hw])
    | ok w =>
      cases hb : b.ensureAccount w with
      | error e => exact Or.inl (by simp [enableConfidentiality, hw, hb])
      | ok k =>
        exact Or.inr ⟨k, by simp [enableConfidentiality, hw, hb],
          by simp [enableConfidentiality, hw, hb]⟩

/-- C7: when the core holds no provider binding, enableConfidentiality fails
with NotConnected on any state, keys set or not — in particular on a freshly
constructed provider-less core; and depositConfidential, transferConfidential
and withdrawConfidential likewise fail with NotConnected on any such instance
whose keys are set. -/
theorem C7_not_connected (b : Backend) (s : CoreState) (recipient token : String)
    (amount : Int) (k : ConfidentialKeys) (hp : s.provider = none) :
    (enableConfidentiality b s).result = .error .notConnected ∧
    (s.keys = some k →
      (depositConfidential b s token amount).result = .error .notConnected ∧
      (transferConfidential b s recipient token amount).result = .error .notConnected ∧
      (withdrawConfidential b s token amount).result = .error .notConnected) := by
  have hw : getEthersWallet s = .error .notConnected := by
    unfold getEthersWallet
    rw [hp]
  constructor
  · simp [enableConfidentiality, hw]
  · intro hk
    refine ⟨?_, ?_, ?_⟩ <;>
      simp [depositConfidential, transferConfidential, withdrawConfidential, hk, hw]

/-- Witness for C7, first at the freshly constructed provider-less core with
keys unset, then at the provider-less core with keys set. -/
theorem C7_witness :
    sNoProv.provider = none ∧ sNoProv.keys = none ∧
    (enableConfidentiality demoBackend sNoProv).result = .error .notConnected ∧
    sNoProvEnabled.provider = none ∧ sNoProvEnabled.keys = some ⟨pk1, sk1⟩ ∧
    ((depositConfidential demoBackend sNoProvEnabled tokenA 5).result =
       .error .notConnected ∧
     (transferConfidential demoBackend sNoProvEnabled addrRecipient tokenA 5).result =
       .error .notConnected ∧
     (withdrawConfidential demoBackend sNoProvEnabled tokenA 5).result =
       .error .notConnected) :=
  ⟨rfl, rfl,
   (C7_not_connected demoBackend sNoProv addrRecipient tokenA 5 ⟨pk1, sk1⟩ rfl).1,
   rfl, rfl,
   (C7_not_connected demoBackend sNoProvEnabled addrRecipient tokenA 5 ⟨pk1, sk1⟩ rfl).2 rfl⟩

/-- C8: enableConfidentiality is not idempotent. On an instance whose keys
are already set, a further call runs the backend registration routine again
and overwrites the stored keys with the latest result; when the new pair
differs from the old, the stored keys change. -/
theorem C8_enable_overwrites (b : Backend) (s : CoreState) (w : EthersWallet)
    (kOld kNew : ConfidentialKeys) (hk : s.keys = some kOld)
    (hw : getEthersWallet s = .ok w) (hb : b.ensureAccount w = .ok kNew)
    (hne : kOld ≠ kNew) :
    enableConfidentiality b s =
      ⟨.ok ⟨kNew.publicKey, kNew.privateKey⟩, { s with keys := some kNew },
        [.ensureAccount w]⟩ ∧
    (enableConfidentiality b s).state.keys ≠ s.keys := by
  constructor
  · simp [enableConfidentiality, hw, hb]
  · simp [enableConfidentiality, hw, hb, hk]
    exact fun h => hne h.symm

/-- Witness for C8: a second enablement against a backend returning a
different pair overwrites the stored demo keys. -/
theorem C8_witness :
    sEnabled.keys = some ⟨pk1, sk1⟩ ∧
    enableConfidentiality demoBackend2 sEnabled =
      ⟨.ok ⟨pk2, sk2⟩, { sEnabled with keys := some ⟨pk2, sk2⟩ },
        [.ensureAccount demoWallet]⟩ ∧
    (enableConfidentiality demoBackend2 sEnabled).state.keys ≠ sEnabled.keys :=
  ⟨rfl,
   (C8_enable_overwrites demoBackend2 sEnabled demoWallet ⟨pk1, sk1⟩ ⟨pk2, sk2⟩
      rfl rfl rfl (by decide)).1,
   (C8_enable_overwrites demoBackend2 sEnabled demoWallet ⟨pk1, sk1⟩ ⟨pk2, sk2⟩
      rfl rfl rfl (by decide)).2⟩

/-- C9: getPublicBalance and getFee carry no enablement or signing
precondition on any core state: getPublicBalance forwards the backend
public-ledger result (or its failure) unchanged, never raising NotEnabled or
UnsupportedOperation, and getFee returns zero without touching the backend. -/
theorem C9_public_queries_ungated (b : Backend) (s : CoreState) (token : String) :
    getPublicBalance b s token =
      ⟨Except.mapError ProtoError.backendFailure
        (b.getPublicBalance s.account.getAddress token),
       s, [BackendCall.getPublicBalance s.account.getAddress token]⟩ ∧
    (getPublicBalance b s token).result ≠ .error .notEnabled ∧
    (getPublicBalance b s token).result ≠ .error .unsupportedOperation ∧
    getFee b s = ⟨.ok 0, s, []⟩ := by
  cases hb : b.getPublicBalance s.account.getAddress token <;>
    simp [getPublicBalance, getFee, hb, Except.mapError]

/-- Witness for C9 at the read-only, never-enabled demo core. -/
theorem C9_witness :
    getPublicBalance demoBackend sReadOnly tokenA =
      ⟨Except.mapError ProtoError.backendFailure
        (demoBackend.getPublicBalance sReadOnly.account.getAddress tokenA),
       sReadOnly, [BackendCall.getPublicBalance sReadOnly.account.getAddress tokenA]⟩ ∧
    (getPublicBalance demoBackend sReadOnly tokenA).result ≠ .error .notEnabled ∧
    (getPublicBalance demoBackend sReadOnly tokenA).result ≠ .error .unsupportedOperation ∧
    getFee demoBackend sReadOnly = ⟨.ok 0, sReadOnly, []⟩ :=
  C9_public_queries_ungated demoBackend sReadOnly tokenA

/-- C10: when both preconditions are violated (keys unset and no provider
binding), the enablement check wins: deposit, transfer and withdraw reject
with NotEnabled, not with the NotConnected error the wallet accessor would
raise. -/
theorem C10_enabled_before_connected (b : Backend) (s : CoreState)
    (recipient token : String) (amount : Int)
    (hk : s.keys = none) (hp : s.provider = none) :
    depositConfidential b s token amount = ⟨.error .notEnabled, s, []⟩ ∧
    transferConfidential b s recipient token amount = ⟨.error .notEnabled, s, []⟩ ∧
    withdrawConfidential b s token amount = ⟨.error .notEnabled, s, []⟩ ∧
    getEthersWallet s = .error .notConnected ∧
    ProtoError.notEnabled ≠ ProtoError.notConnected := by
  refine ⟨?_, ?_, ?_, ?_, by decide⟩
  · simp [depositConfidential, hk]
  · simp [transferConfidential, hk]
  · simp [withdrawConfidential, hk]
  · unfold getEthersWallet
    rw [hp]

/-- Witness for C10 at the demo core violating both preconditions. -/
theorem C10_witness :
    sNoProv.keys = none ∧ sNoProv.provider = none ∧
    (depositConfidential demoBackend sNoProv tokenA 5 = ⟨.error .notEnabled, sNoProv, []⟩ ∧
     transferConfidential demoBackend sNoProv addrRecipient tokenA 5 =
       ⟨.error .notEnabled, sNoProv, []⟩ ∧
     withdrawConfidential demoBackend sNoProv tokenA 5 = ⟨.error .notEnabled, sNoProv, []⟩ ∧
     getEthersWallet sNoProv = .error .notConnected ∧
     ProtoError.notEnabled ≠ ProtoError.notConnected) :=
  ⟨rfl, rfl,
   C10_enabled_before_connected demoBackend sNoProv addrRecipient tokenA 5 rfl rfl⟩
